import Mathlib

set_option maxHeartbeats 1000000

/-! Shallow embedding of the routing/orchestration core of the repository:
the run-state record, the router (`orchestrator_node`, `route_simple`), the
two handlers (`provider_agent_node`, `beneficiary_agent_node`), the finalizer
(`finalize_node`), the PDF-context initialisation (`init_pdf_node`), and the
synthetic candidate generator (`generate_providers`).  External collaborators
(the LLM classification oracle, the PRNG, the filesystem) are passed in as
explicit function parameters. -/

/-- One conversation turn, normalised to a record with a role tag, text
content, and the optional producing-agent metadata the handlers attach
(source messages are dicts with keys role/content/agent/response_key or
langchain message objects with type/content). -/
structure Msg where
  role : String
  content : String
  agent : Option String := none
  response_key : Option String := none
deriving Repr, DecidableEq

/-- Python-style dynamic value as far as the orchestration code inspects it:
None, a string, or a dict whose values are again such values.  Used for the
payloads the LLM oracle returns and the handler result slots. -/
inductive PyVal where
  | pnone : PyVal
  | pstr (s : String) : PyVal
  | pdict (fields : List (String × PyVal)) : PyVal

/-- Python truthiness of a `PyVal` (None and empty string/dict are falsy). -/
def pyTruthy : PyVal → Bool
  | .pnone => false
  | .pstr s => !s.isEmpty
  | .pdict l => !l.isEmpty

/-- `d.get(k)` on a dict: the first binding of the key, else None. -/
def dictGet (l : List (String × PyVal)) (k : String) : PyVal :=
  match l.find? (fun kv => kv.fst == k) with
  | some kv => kv.snd
  | none => .pnone

mutual

/-- Python `repr` of a `PyVal` as the source would print it
(dict entries as \x27key\x27: value, None as "None"). -/
def pyRepr : PyVal → String
  | .pnone => "None"
  | .pstr s => "\x27" ++ s ++ "\x27"
  | .pdict l => "\x7b" ++ pyReprFields l ++ "\x7d"

/-- Comma-joined rendering of dict entries, used by `pyRepr`. -/
def pyReprFields : List (String × PyVal) → String
  | [] => ""
  | [kv] => "\x27" ++ kv.fst ++ "\x27: " ++ pyRepr kv.snd
  | kv :: rest => "\x27" ++ kv.fst ++ "\x27: " ++ pyRepr kv.snd ++ ", " ++ pyReprFields rest

end

/-- Python `str` of a `PyVal`: a string renders as itself, anything else as
its repr, mirroring how f-string interpolation treats the value. -/
def pyStr : PyVal → String
  | .pstr s => s
  | .pnone => "None"
  | .pdict l => pyRepr (.pdict l)

/-- Truthiness of an optional state slot (`state.get(key)` on a `total=False`
TypedDict: an absent key behaves like None). -/
def pyTruthyOpt : Option PyVal → Bool
  | none => false
  | some v => pyTruthy v

/-- One synthetic candidate record, as produced by
`generate_providers` in src/provider_agent.py (the `rating` float is carried
in tenths of a point: `round(uniform(3.5, 5.0), 1)` yields a multiple of
0.1, stored here as `rating_tenths` in 35..50). -/
structure Provider where
  id : String
  name : String
  gender : String
  specialty : String
  rating_tenths : Nat
  years_experience : Nat
  location : String
  contact_email : String
deriving Repr, DecidableEq

/-- The run state threaded through one orchestration run (`AgentState` in the
source, a `total=False` TypedDict: every field is optional; result slots of
both source revisions are present). -/
structure AgentState where
  messages : List Msg := []
  route : Option String := none
  pdf_text : Option String := none
  offer_summary : Option PyVal := none
  offer_last_updated : Option Nat := none
  beneficiary_answer : Option PyVal := none
  beneficiary_last_updated : Option Nat := none
  provider_candidates : Option (List Provider) := none
  provider_last_updated : Option Nat := none
  final_answer : Option String := none

/-- Python `str.lower()` (character-wise lowercasing, as the source applies
it to ASCII role tags). -/
def strLower (s : String) : String := String.mk (s.data.map Char.toLower)

/-- src/utility.py `get_last_human_message`: scan `state["messages"]` from the
end; the first turn whose role/type lowercases to user, human or humanmessage
wins and its content is returned; None when no such turn exists. -/
def isHumanRole (r : String) : Bool :=
  strLower r == "user" || strLower r == "human" || strLower r == "humanmessage"

/-- src/utility.py `get_last_human_message` (see `isHumanRole`). -/
def get_last_human_message (state : AgentState) : Option String :=
  (state.messages.reverse.find? (fun m => isHumanRole m.role)).map (fun m => m.content)

/-- The user-query extraction inlined in src/orchestrator.py
`orchestrator_node` (lines 117-121): scan the messages in reverse for the
first langchain turn with `type == "human"`; default is the empty string. -/
def orchUserQuery (messages : List Msg) : String :=
  match messages.reverse.find? (fun m => m.role == "human") with
  | some m => m.content
  | none => ""

/-- Outcome of one call to the LLM classification oracle
(`call_llm_json(ORCH_SYS, user_query, schema=OrchestratorOutput)`): either a
payload dict (string fields, e.g. `route`) or a raised exception. -/
inductive ClassifierResult where
  | ok (payload : List (String × String)) : ClassifierResult
  | error (e : String) : ClassifierResult

/-- `payload.get(k, d)` on a string-valued dict. -/
def lookupD (l : List (String × String)) (k d : String) : String :=
  match l.find? (fun kv => kv.fst == k) with
  | some kv => kv.snd
  | none => d

/-- The `ORCH_SYS` routing instruction of src/orchestrator.py (lines 101-109),
after `.strip()`. -/
def ORCH_SYS : String :=
  "You are an orchestrator. \nDecide the next route for a multi-agent system.\nValid routes are:\n  - \"offer\"       -> when user asks about live offers or prices (API)\n  - \"beneficiary\" -> when user asks about beneficiary details in a PDF\n  - \"finalize\"    -> when enough info is gathered to give a final answer or when the user asks something unrelated\nReturn strict JSON, e.g.: \x7b\"route\": \"offer\"\x7d"

/-- src/orchestrator.py `orchestrator_node` (lines 115-126): extract the last
human turn, call the classifier with `ORCH_SYS`, and set
`route = payload.get("route", "finalize")`.  A raised classifier error
propagates out of the node (there is no try/except here), modelled as
`Except.error`. -/
def orchestrator_node (classify : String → String → ClassifierResult)
    (state : AgentState) : Except String AgentState :=
  let user_query := orchUserQuery state.messages
  match classify ORCH_SYS user_query with
  | .error e => .error e
  | .ok payload => .ok { state with route := some (lookupD payload "route" "finalize") }

/-- src/main.py `route_simple` (lines 80-99): build `state = {messages}`, call
`orchestrator_node`, answer `orch_res.get("route", "finalize")`; any raised
exception is caught and the route falls back to "finalize". -/
def route_simple (classify : String → String → ClassifierResult)
    (messages : List Msg) : String :=
  match orchestrator_node classify { messages := messages } with
  | .ok orch_res => orch_res.route.getD "finalize"
  | .error _ => "finalize"

/-- The offer-branch text of src/orchestrator.py `finalize_node` (line 197):
`content.get("summary") if isinstance(content, dict) else str(content)`,
rendered by the f-string. -/
def offerText (content : PyVal) : String :=
  match content with
  | .pdict d => pyStr (dictGet d "summary")
  | v => pyStr v

/-- The beneficiary-branch text of src/orchestrator.py `finalize_node`
(lines 200-203): `content.get("summary") or content.get("error") or
str(content)` for dicts, else `str(content)`. -/
def beneficiaryText (content : PyVal) : String :=
  match content with
  | .pdict d =>
      if pyTruthy (dictGet d "summary") then pyStr (dictGet d "summary")
      else if pyTruthy (dictGet d "error") then pyStr (dictGet d "error")
      else pyStr (.pdict d)
  | v => pyStr v

/-- The reply resolved by src/orchestrator.py `finalize_node` (lines 183-206):
pick the handler output with the most recent `*_last_updated` timestamp
(beneficiary wins ties; missing timestamps default to 0; a slot only counts
when its value is truthy), prefix the agent banner, and fall back to the
fixed apology/retry string when neither slot is eligible. -/
def finalizeReply (state : AgentState) : String :=
  let offer_time := state.offer_last_updated.getD 0
  let beneficiary_time := state.beneficiary_last_updated.getD 0
  if beneficiary_time ≥ offer_time ∧ pyTruthyOpt state.beneficiary_answer = true then
    "👤 Beneficiary Info:\n" ++ beneficiaryText (state.beneficiary_answer.getD .pnone)
  else if offer_time > beneficiary_time ∧ pyTruthyOpt state.offer_summary = true then
    "📄 Offer Summary:\n" ++ offerText (state.offer_summary.getD .pnone)
  else
    "I couldn\u2019t extract relevant details. Please try refining your query."

/-- src/orchestrator.py `finalize_node` (lines 183-209): resolve the reply
(see `finalizeReply`), append one assistant turn carrying it, and set
`final_answer` to it. -/
def finalize_node (state : AgentState) : AgentState :=
  let reply := finalizeReply state
  { state with
      messages := state.messages ++ [{ role := "assistant", content := reply }],
      final_answer := some reply }

/-- Display form of one candidate inside the summary line of
src/provider_agent.py `_make_final_answer_from_providers` (lines 56-63):
the name, with the specialty in parentheses when it is truthy. -/
def providerDisplayName (p : Provider) : String :=
  if p.specialty ≠ "" then p.name ++ " (" ++ p.specialty ++ ")" else p.name

/-- src/provider_agent.py `_make_final_answer_from_providers` (lines 46-66):
"No providers found." for an empty set, otherwise "Found N providers: " plus
the first five display names comma-joined, plus " and K more" when truncated,
plus a final period. -/
def _make_final_answer_from_providers (candidates : List Provider) : String :=
  if candidates.isEmpty then "No providers found."
  else
    let count := candidates.length
    let top := candidates.take 5
    let names_summary := String.intercalate ", " (top.map providerDisplayName)
    let more := if count > top.length then " and " ++ toString (count - top.length) ++ " more" else ""
    "Found " ++ toString count ++ " providers: " ++ names_summary ++ more ++ "."

/-- src/provider_agent.py `provider_agent_node` (lines 69-106): seed candidate
generation from the last human turn (`user_query or ""`); a raised generation
error is caught and converted into an assistant turn plus `final_answer`
carrying "Provider generation failed: ..."; on success the candidate slot,
its timestamp, the textual summary and one assistant turn are written.  The
fallible `generate_providers` call (with its PRNG and the wall clock) is
passed in as a parameter. -/
def provider_agent_node (generate : Nat → String → Except String (List Provider))
    (now : Nat) (state : AgentState) : AgentState :=
  let user_query := (get_last_human_message state).getD ""
  match generate 6 user_query with
  | .error e =>
      let err_msg := "Provider generation failed: " ++ e
      { state with
          messages := state.messages ++
            [{ role := "assistant", content := err_msg, agent := some "provider",
               response_key := some "provider_candidates" }],
          final_answer := some err_msg }
  | .ok candidates =>
      let fa := _make_final_answer_from_providers candidates
      { state with
          provider_candidates := some candidates,
          provider_last_updated := some now,
          final_answer := some fa,
          messages := state.messages ++
            [{ role := "assistant", content := fa, agent := some "provider",
               response_key := some "provider_candidates" }] }

/-- src/beneficiary_agent.py `_extract_text_from_llm_response` (lines 12-34):
None gives ""; a dict answers its truthy `summary`, else the first truthy of
`content`/`text`/`answer`, else its stringification; anything else its
`str`. -/
def _extract_text_from_llm_response (resp : PyVal) : String :=
  match resp with
  | .pnone => ""
  | .pdict d =>
      if pyTruthy (dictGet d "summary") then pyStr (dictGet d "summary")
      else if pyTruthy (dictGet d "content") then pyStr (dictGet d "content")
      else if pyTruthy (dictGet d "text") then pyStr (dictGet d "text")
      else if pyTruthy (dictGet d "answer") then pyStr (dictGet d "answer")
      else pyStr (.pdict d)
  | v => pyStr v

/-- The system instruction of src/beneficiary_agent.py (line 162). -/
def BENEFICIARY_SYS : String :=
  "You are Beneficiary Agent. Answer user queries using the PDF text."

/-- src/beneficiary_agent.py `beneficiary_agent_node` (lines 37-72): with an
empty/absent `pdf_text` the answer slot gets the explicit no-data marker and
`final_answer` the fixed explanatory string, without calling the LLM;
otherwise the oracle (`call_llm_json`, passed in as the `oracle` parameter)
is consulted and its reply reduced to text.  Either way the answer slot, its
timestamp, `final_answer` and one assistant turn are written. -/
def beneficiary_agent_node (oracle : String → String → PyVal) (now : Nat)
    (state : AgentState) : AgentState :=
  let pdf_text := state.pdf_text.getD ""
  let user_query := get_last_human_message state
  if pdf_text = "" then
    let answer : PyVal := .pdict [("error", .pstr "No PDF data available")]
    let final_answer := "No PDF data available to answer the question."
    { state with
        beneficiary_answer := some answer,
        beneficiary_last_updated := some now,
        final_answer := some final_answer,
        messages := state.messages ++
          [{ role := "assistant", content := final_answer, agent := some "beneficiary",
             response_key := some "beneficiary_answer" }] }
  else
    let answer := oracle BENEFICIARY_SYS
      ("PDF: " ++ pdf_text ++ "\n\nUser Question: " ++
        (match user_query with | some q => q | none => "None"))
    let extracted := _extract_text_from_llm_response answer
    let final_answer := if extracted = "" then "No answer produced." else extracted
    { state with
        beneficiary_answer := some answer,
        beneficiary_last_updated := some now,
        final_answer := some final_answer,
        messages := state.messages ++
          [{ role := "assistant", content := final_answer, agent := some "beneficiary",
             response_key := some "beneficiary_answer" }] }

/-- src/init_pdf.py `MAX_PROMPT_CHARS` (line 12). -/
def MAX_PROMPT_CHARS : Nat := 28000

/-- src/init_pdf.py `init_pdf_node` (lines 31-49): keep an already-supplied
truthy `pdf_text`; otherwise, when the default PDF file exists, load its
extracted text truncated to `MAX_PROMPT_CHARS`; otherwise leave the state
unchanged.  The filesystem lookup plus extraction is the `defaultPdf`
parameter (`some extracted` when the file exists). -/
def init_pdf_node (defaultPdf : Option String) (state : AgentState) : AgentState :=
  let incoming := state.pdf_text.getD ""
  if incoming ≠ "" then { state with pdf_text := state.pdf_text }
  else
    match defaultPdf with
    | some extracted =>
        let t := if extracted.length > MAX_PROMPT_CHARS then extracted.take MAX_PROMPT_CHARS
                 else extracted
        { state with pdf_text := some t }
    | none => state

/-- src/provider_agent.py name/attribute pools (lines 13-17) and the email
domains of `_random_email` (line 22). -/
def FIRST : List String :=
  ["Aarav", "Ishita", "Rohan", "Priya", "Samar", "Nina", "Arjun", "Maya", "Vikram", "Kavya"]

/-- src/provider_agent.py `LAST` pool (line 14). -/
def LAST : List String :=
  ["Sharma", "Patel", "Singh", "Gupta", "Rao", "Desai", "Mehra", "Chatterjee"]

/-- src/provider_agent.py `SPECIALTIES` pool (line 15). -/
def SPECIALTIES : List String :=
  ["Cardiology", "Dermatology", "Orthopedics", "Pediatrics", "ENT", "Psychiatry",
   "General Medicine", "Ophthalmology"]

/-- src/provider_agent.py `GENDERS` pool (line 16). -/
def GENDERS : List String := ["Male", "Female", "Non-binary"]

/-- src/provider_agent.py `LOCATIONS` pool (line 17). -/
def LOCATIONS : List String :=
  ["Bhubaneswar", "Bengaluru", "Delhi", "Mumbai", "Hyderabad", "Kolkata", "Pune"]

/-- The domain pool of src/provider_agent.py `_random_email` (line 22). -/
def EMAIL_DOMAINS : List String := ["example.com", "clinicmail.com", "provider.org"]

/-- `random.choice(l)` driven by one PRNG draw `r`: an element of the list,
selected by index (the pools are never empty, so the default is unused). -/
def randChoice (l : List String) (r : Nat) : String := l.getD (r % l.length) ""

/-- One lowercase hex digit. -/
def hexDigitChar (n : Nat) : Char := "0123456789abcdef".toList.getD (n % 16) '0'

/-- Little-endian list of `k` hex digits of `v`. -/
def hexChars : Nat → Nat → List Char
  | 0, _ => []
  | k + 1, v => hexDigitChar (v % 16) :: hexChars k (v / 16)

/-- `str(uuid.uuid4())` driven by one 128-bit draw `r`: 32 hex characters in
the canonical 8-4-4-4-12 hyphenation. -/
def uuid4_string (r : Nat) : String :=
  let c := hexChars 32 r
  String.mk (c.take 8 ++ '-' :: ((c.drop 8).take 4 ++ '-' ::
    ((c.drop 12).take 4 ++ '-' :: ((c.drop 16).take 4 ++ '-' :: c.drop 20))))

/-- src/provider_agent.py `_random_email` (lines 20-23): lowercase the name,
replace spaces by dots, append @ and a random domain. -/
def _random_email (name : String) (r : Nat) : String :=
  let slug := name.toLower.replace " " "."
  let domain := randChoice EMAIL_DOMAINS r
  slug ++ "@" ++ domain

/-- One loop iteration of src/provider_agent.py `generate_providers`
(lines 30-42), consuming nine sequential PRNG draws (name parts, uuid,
gender, specialty, rating, years, location, email domain).
`rand.uniform(3.5, 5.0)` rounded to one decimal is a tenths value in 35..50,
`rand.randint(2, 30)` a value in 2..30; both are drawn from the stream and
mapped into their range. -/
def mkProvider (stream : Nat → Nat) (i : Nat) : Provider :=
  let b := 9 * i
  let first_name := randChoice FIRST (stream b)
  let last_name := randChoice LAST (stream (b + 1))
  let name := first_name ++ " " ++ last_name
  { id := uuid4_string (stream (b + 2)),
    name := name,
    gender := randChoice GENDERS (stream (b + 3)),
    specialty := randChoice SPECIALTIES (stream (b + 4)),
    rating_tenths := 35 + stream (b + 5) % 16,
    years_experience := 2 + stream (b + 6) % 29,
    location := randChoice LOCATIONS (stream (b + 7)),
    contact_email := _random_email name (stream (b + 8)) }

/-- src/provider_agent.py `generate_providers` (lines 26-43): seed a fresh
PRNG from `(seed_text or "") + str(random.random())` (the ambient draw is the
`ambientSeed` parameter, the seeded PRNG the `seededRandom` parameter) and
produce `n` records in a loop. -/
def generate_providers (n : Nat) (seed_text : String)
    (seededRandom : String → Nat → Nat) (ambientSeed : String) : List Provider :=
  let stream := seededRandom (seed_text ++ ambientSeed)
  (List.range n).map (mkProvider stream)

/-- Input state for examining the finalizer when a `final_answer` is already
present alongside a fresher beneficiary result. -/
def c3_state : AgentState :=
  { final_answer := some "X",
    beneficiary_answer := some (.pdict [("summary", .pstr "Y")]),
    beneficiary_last_updated := some 5 }

/-- Input state with only an error-marker beneficiary result. -/
def c3_wstate : AgentState :=
  { beneficiary_answer := some (.pdict [("error", .pstr "E")]) }

/-- Input state with only a truthy, strictly newer offer result. -/
def c3_ostate : AgentState :=
  { offer_summary := some (.pdict [("summary", .pstr "S")]),
    offer_last_updated := some 3 }

/-- Input state whose truthy beneficiary result is outranked by a strictly
newer offer timestamp while the offer slot itself is falsy, so neither
branch is eligible. -/
def c3_dstate : AgentState :=
  { beneficiary_answer := some (.pdict [("error", .pstr "E")]),
    offer_last_updated := some 9 }

/-- Six concrete candidate records (the first with a truthy specialty, the
rest without) for evaluating the summary line. -/
def sixProviders : List Provider :=
  [{ id := "i1", name := "P1", gender := "Female", specialty := "Cardiology",
     rating_tenths := 41, years_experience := 9, location := "Delhi",
     contact_email := "p1@example.com" },
   { id := "i2", name := "P2", gender := "Male", specialty := "",
     rating_tenths := 35, years_experience := 2, location := "Pune",
     contact_email := "p2@example.com" },
   { id := "i3", name := "P3", gender := "Male", specialty := "",
     rating_tenths := 50, years_experience := 30, location := "Pune",
     contact_email := "p3@example.com" },
   { id := "i4", name := "P4", gender := "Female", specialty := "",
     rating_tenths := 38, years_experience := 12, location := "Mumbai",
     contact_email := "p4@example.com" },
   { id := "i5", name := "P5", gender := "Male", specialty := "",
     rating_tenths := 44, years_experience := 21, location := "Kolkata",
     contact_email := "p5@example.com" },
   { id := "i6", name := "P6", gender := "Female", specialty := "",
     rating_tenths := 47, years_experience := 5, location := "Delhi",
     contact_email := "p6@example.com" }]

/-- The candidate produced by the generator from the all-zero draw stream. -/
def w10_provider : Provider := mkProvider (fun _ => 0) 0

/-! Helper lemmas. -/

theorem str_ne_empty_of_length_pos (s : String) (h : 0 < s.length) : s ≠ "" := by
  intro e
  subst e
  simp at h

theorem str_append_ne_empty_left (a b : String) (h : 0 < a.length) : a ++ b ≠ "" := by
  apply str_ne_empty_of_length_pos
  rw [String.length_append]
  omega

theorem sep_append_ne_empty (a m b : String) (hm : 0 < m.length) : a ++ m ++ b ≠ "" := by
  apply str_append_ne_empty_left
  rw [String.length_append]
  omega

theorem string_mk_append_cons_ne_empty (l1 : List Char) (ch : Char) (l2 : List Char) :
    String.mk (l1 ++ ch :: l2) ≠ "" := by
  intro h
  have hdata : l1 ++ ch :: l2 = ([] : List Char) := congrArg String.data h
  exact absurd (List.append_eq_nil.mp hdata).2 (List.cons_ne_nil ch l2)

theorem randChoice_mem (l : List String) (r : Nat) (h : l ≠ []) : randChoice l r ∈ l := by
  unfold randChoice
  have hl : 0 < l.length := List.length_pos.mpr h
  have hlt : r % l.length < l.length := Nat.mod_lt _ hl
  rw [List.getD_eq_getElem l "" hlt]
  exact List.getElem_mem hlt

theorem uuid4_string_ne_empty (r : Nat) : uuid4_string r ≠ "" :=
  string_mk_append_cons_ne_empty _ '-' _

theorem mkProvider_wellformed (stream : Nat → Nat) (i : Nat) :
    (mkProvider stream i).id ≠ "" ∧ (mkProvider stream i).name ≠ "" ∧
    (mkProvider stream i).gender ∈ GENDERS ∧ (mkProvider stream i).specialty ∈ SPECIALTIES ∧
    35 ≤ (mkProvider stream i).rating_tenths ∧ (mkProvider stream i).rating_tenths ≤ 50 ∧
    2 ≤ (mkProvider stream i).years_experience ∧ (mkProvider stream i).years_experience ≤ 30 ∧
    (mkProvider stream i).location ∈ LOCATIONS ∧ (mkProvider stream i).contact_email ≠ "" := by
  refine ⟨?_, ?_, ?_, ?_, ?_, ?_, ?_, ?_, ?_, ?_⟩
  · exact uuid4_string_ne_empty _
  · exact sep_append_ne_empty _ " " _ (by decide)
  · exact randChoice_mem _ _ (by decide)
  · exact randChoice_mem _ _ (by decide)
  · show 35 ≤ 35 + stream (9 * i + 5) % 16
    omega
  · show 35 + stream (9 * i + 5) % 16 ≤ 50
    have : stream (9 * i + 5) % 16 < 16 := Nat.mod_lt _ (by decide)
    omega
  · show 2 ≤ 2 + stream (9 * i + 6) % 29
    omega
  · show 2 + stream (9 * i + 6) % 29 ≤ 30
    have : stream (9 * i + 6) % 29 < 29 := Nat.mod_lt _ (by decide)
    omega
  · exact randChoice_mem _ _ (by decide)
  · exact sep_append_ne_empty _ "@" _ (by decide)

theorem make_final_answer_six (ps : List Provider) (h : ps.length = 6) :
    _make_final_answer_from_providers ps =
      "Found 6 providers: " ++
        String.intercalate ", " ((ps.take 5).map providerDisplayName) ++ " and 1 more." := by
  rcases ps with _ | ⟨a, _ | ⟨b, _ | ⟨c, _ | ⟨d, _ | ⟨e, _ | ⟨f, rest⟩⟩⟩⟩⟩⟩ <;>
    simp only [List.length_cons, List.length_nil] at h
  · omega
  · omega
  · omega
  · omega
  · omega
  · omega
  · have hrest : rest = [] := by
      have : rest.length = 0 := by omega
      exact List.eq_nil_of_length_eq_zero this
    subst hrest
    have h6 : (toString (6 : Nat)) = "6" := rfl
    have hsub : (6 - 5 : Nat) = 1 := rfl
    have h1 : (toString (1 : Nat)) = "1" := rfl
    simp [_make_final_answer_from_providers, h6, hsub, h1]
    rw [String.append_assoc]
    have hdot : (" and 1 more" ++ "." : String) = " and 1 more." := by decide
    rw [hdot]

/-! Claim theorems. -/

/-- Claim C1 (code evidence): the classification step does NOT resolve an
out-of-set label to "finalize".  When the classifier returns the payload
route = "banana" (outside the fixed label set), `route_simple` returns
"banana" unchanged, against its own documented contract; only a raised
classifier error falls back to "finalize", and `orchestrator_node` itself
stores the out-of-set label in `route`. -/
theorem route_simple_out_of_set_label :
    route_simple (fun _ _ => .ok [("route", "banana")]) [] = "banana" ∧
    "banana" ∉ (["offer", "beneficiary", "finalize"] : List String) ∧
    route_simple (fun _ _ => .error "classifier down") [] = "finalize" ∧
    (orchestrator_node (fun _ _ => .ok [("route", "banana")]) {}).map (fun st => st.route)
      = .ok (some "banana") :=
  ⟨rfl, by decide, rfl, rfl⟩

/-- Claim C2: for every state, after the finalizer (the last stage of every
complete run) `final_answer` is a non-empty string, the log contains an
assistant turn carrying it, and when no truthy handler output exists the
answer is the fixed apology/retry string. -/
theorem finalize_totality (s : AgentState) :
    ∃ r : String,
      (finalize_node s).final_answer = some r ∧
      r ≠ "" ∧
      (∃ m ∈ (finalize_node s).messages, m.role = "assistant" ∧ m.content = r) ∧
      ((pyTruthyOpt s.beneficiary_answer = false ∧ pyTruthyOpt s.offer_summary = false) →
        r = "I couldn’t extract relevant details. Please try refining your query.") := by
  refine ⟨finalizeReply s, rfl, ?_, ?_, ?_⟩
  · simp only [finalizeReply]
    split_ifs with h1 h2
    · exact str_append_ne_empty_left _ _ (by decide)
    · exact str_append_ne_empty_left _ _ (by decide)
    · decide
  · refine ⟨{ role := "assistant", content := finalizeReply s }, ?_, rfl, rfl⟩
    exact List.mem_append_right _ (List.mem_cons_self _ _)
  · rintro ⟨hb, ho⟩
    simp only [finalizeReply]
    rw [if_neg, if_neg]
    · rintro ⟨-, hx⟩
      rw [ho] at hx
      exact Bool.false_ne_true hx
    · rintro ⟨-, hx⟩
      rw [hb] at hx
      exact Bool.false_ne_true hx

/-- Claim C2 witness: on the empty state the finalizer produces the fixed
apology/retry string. -/
theorem finalize_totality_witness :
    (finalize_node {}).final_answer =
      some "I couldn’t extract relevant details. Please try refining your query." := by
  obtain ⟨r, hfa, -, -, himp⟩ := finalize_totality {}
  rw [hfa, himp ⟨rfl, rfl⟩]

/-- Claim C3 counterexample: on a state that already carries
`final_answer = "X"` next to a fresher beneficiary result with summary "Y",
the finalizer does NOT use "X" verbatim: it rebuilds the text from the
beneficiary slot. -/
theorem finalize_not_verbatim_cex :
    (finalize_node c3_state).final_answer = some "👤 Beneficiary Info:\nY" ∧
    (finalize_node c3_state).final_answer ≠ some "X" := by
  constructor
  · decide
  · decide

/-- Claim C3 as amended: the finalizer ignores both a preexisting
`final_answer` and the message log; it resolves the surfaced text purely
from the handler result slots and their timestamps: the beneficiary output
(banner-prefixed) when its slot is truthy and its timestamp not older than
the offer timestamp; else the offer output (banner-prefixed) when its slot
is truthy and its timestamp strictly newer; else — whenever neither branch
is eligible — the fixed apology/retry string. -/
theorem finalize_timestamp_policy (s : AgentState) (fa : Option String) (ms : List Msg) :
    (finalize_node { s with final_answer := fa, messages := ms }).final_answer
        = (finalize_node s).final_answer ∧
    (pyTruthyOpt s.beneficiary_answer = true →
      s.offer_last_updated.getD 0 ≤ s.beneficiary_last_updated.getD 0 →
      (finalize_node s).final_answer =
        some ("👤 Beneficiary Info:\n" ++ beneficiaryText (s.beneficiary_answer.getD .pnone))) ∧
    (pyTruthyOpt s.offer_summary = true →
      s.beneficiary_last_updated.getD 0 < s.offer_last_updated.getD 0 →
      (finalize_node s).final_answer =
        some ("📄 Offer Summary:\n" ++ offerText (s.offer_summary.getD .pnone))) ∧
    (¬(s.beneficiary_last_updated.getD 0 ≥ s.offer_last_updated.getD 0 ∧
        pyTruthyOpt s.beneficiary_answer = true) →
      ¬(s.offer_last_updated.getD 0 > s.beneficiary_last_updated.getD 0 ∧
        pyTruthyOpt s.offer_summary = true) →
      (finalize_node s).final_answer =
        some "I couldn’t extract relevant details. Please try refining your query.") := by
  refine ⟨rfl, ?_, ?_, ?_⟩
  · intro hb hle
    show some (finalizeReply s) = _
    simp only [finalizeReply]
    rw [if_pos ⟨hle, hb⟩]
  · intro ho hlt
    show some (finalizeReply s) = _
    simp only [finalizeReply]
    rw [if_neg, if_pos ⟨hlt, ho⟩]
    rintro ⟨hge, -⟩
    exact absurd hge (Nat.not_le.mpr hlt)
  · intro h1 h2
    show some (finalizeReply s) = _
    simp only [finalizeReply]
    rw [if_neg h1, if_neg h2]

/-- Claim C3 amended-claim witness: concrete instances of all four parts of
the timestamp policy, including the offer branch and the mixed case where a
truthy beneficiary slot is outranked by a newer falsy offer slot. -/
theorem finalize_timestamp_policy_witness :
    (finalize_node { final_answer := some "Z", messages := [] } : AgentState).final_answer
        = (finalize_node ({} : AgentState)).final_answer ∧
    (finalize_node c3_wstate).final_answer = some "👤 Beneficiary Info:\nE" ∧
    (finalize_node c3_ostate).final_answer = some "📄 Offer Summary:\nS" ∧
    (finalize_node ({} : AgentState)).final_answer =
      some "I couldn’t extract relevant details. Please try refining your query." ∧
    (finalize_node c3_dstate).final_answer =
      some "I couldn’t extract relevant details. Please try refining your query." :=
  ⟨(finalize_timestamp_policy {} (some "Z") []).1,
   (finalize_timestamp_policy c3_wstate none []).2.1 rfl (Nat.le_refl 0),
   (finalize_timestamp_policy c3_ostate none []).2.2.1 rfl (by decide),
   (finalize_timestamp_policy {} none []).2.2.2 (by decide) (by decide),
   (finalize_timestamp_policy c3_dstate none []).2.2.2 (by decide) (by decide)⟩

/-- Claim C4: when candidate generation raises, the provider handler catches
the error and returns a state whose `final_answer` and single new assistant
turn both carry the error description; the candidate slot and its timestamp
are untouched and (by totality of the embedding) nothing propagates. -/
theorem provider_agent_recovers_generation_failure
    (generate : Nat → String → Except String (List Provider)) (now : Nat)
    (s : AgentState) (e : String)
    (h : generate 6 ((get_last_human_message s).getD "") = .error e) :
    (provider_agent_node generate now s).final_answer =
        some ("Provider generation failed: " ++ e) ∧
    (provider_agent_node generate now s).messages =
        s.messages ++ [{ role := "assistant", content := "Provider generation failed: " ++ e,
                         agent := some "provider",
                         response_key := some "provider_candidates" }] ∧
    (provider_agent_node generate now s).provider_candidates = s.provider_candidates ∧
    (provider_agent_node generate now s).provider_last_updated = s.provider_last_updated := by
  simp only [provider_agent_node, h]
  exact ⟨trivial, trivial, trivial, trivial⟩

/-- Claim C4 witness: a generator that always raises "boom", on the empty
state. -/
theorem provider_agent_recovers_generation_failure_witness :
    (provider_agent_node (fun _ _ => .error "boom") 0 {}).final_answer =
        some ("Provider generation failed: " ++ "boom") ∧
    (provider_agent_node (fun _ _ => .error "boom") 0 {}).messages =
        [] ++ [{ role := "assistant", content := "Provider generation failed: " ++ "boom",
                 agent := some "provider", response_key := some "provider_candidates" }] ∧
    (provider_agent_node (fun _ _ => .error "boom") 0 {}).provider_candidates = none ∧
    (provider_agent_node (fun _ _ => .error "boom") 0 {}).provider_last_updated = none :=
  provider_agent_recovers_generation_failure (fun _ _ => .error "boom") 0 {} "boom" rfl

/-- Claim C5: with an empty (or absent) `pdf_text`, the beneficiary handler
writes the explicit no-data marker into its result slot and the fixed
explanatory string into `final_answer` (plus the matching assistant turn and
timestamp), for EVERY oracle — i.e. the LLM is not consulted, and this is a
returned outcome, not a raised failure. -/
theorem beneficiary_agent_empty_pdf (oracle : String → String → PyVal) (now : Nat)
    (s : AgentState) (h : s.pdf_text.getD "" = "") :
    (beneficiary_agent_node oracle now s).beneficiary_answer =
        some (.pdict [("error", .pstr "No PDF data available")]) ∧
    (beneficiary_agent_node oracle now s).final_answer =
        some "No PDF data available to answer the question." ∧
    (beneficiary_agent_node oracle now s).beneficiary_last_updated = some now ∧
    (beneficiary_agent_node oracle now s).messages =
        s.messages ++ [{ role := "assistant",
                         content := "No PDF data available to answer the question.",
                         agent := some "beneficiary",
                         response_key := some "beneficiary_answer" }] := by
  simp only [beneficiary_agent_node, h, if_pos]
  exact ⟨trivial, trivial, trivial, trivial⟩

/-- Claim C5 witness: the empty state (no `pdf_text`) with an arbitrary
constant oracle. -/
theorem beneficiary_agent_empty_pdf_witness :
    (beneficiary_agent_node (fun _ _ => .pnone) 7 {}).beneficiary_answer =
        some (.pdict [("error", .pstr "No PDF data available")]) ∧
    (beneficiary_agent_node (fun _ _ => .pnone) 7 {}).final_answer =
        some "No PDF data available to answer the question." ∧
    (beneficiary_agent_node (fun _ _ => .pnone) 7 {}).beneficiary_last_updated = some 7 ∧
    (beneficiary_agent_node (fun _ _ => .pnone) 7 {}).messages =
        [] ++ [{ role := "assistant",
                 content := "No PDF data available to answer the question.",
                 agent := some "beneficiary",
                 response_key := some "beneficiary_answer" }] :=
  beneficiary_agent_empty_pdf (fun _ _ => .pnone) 7 {} rfl

/-- Claim C6: for every list of exactly six candidates the summary is
"Found 6 providers: " followed by the first five display names (name, with
specialty in parentheses when present) comma-joined, followed by
" and 1 more."; for zero candidates it is the fixed "No providers found.". -/
theorem make_final_answer_truncation (ps : List Provider) (h : ps.length = 6) :
    _make_final_answer_from_providers ps =
      "Found 6 providers: " ++
        String.intercalate ", " ((ps.take 5).map providerDisplayName) ++ " and 1 more." ∧
    _make_final_answer_from_providers [] = "No providers found." :=
  ⟨make_final_answer_six ps h, rfl⟩

/-- Claim C6 witness: six concrete candidates evaluate to the fully rendered
summary line. -/
theorem make_final_answer_truncation_witness :
    _make_final_answer_from_providers sixProviders =
      "Found 6 providers: P1 (Cardiology), P2, P3, P4, P5 and 1 more." ∧
    _make_final_answer_from_providers [] = "No providers found." :=
  ⟨((make_final_answer_truncation sixProviders rfl).1).trans (by decide),
   (make_final_answer_truncation sixProviders rfl).2⟩

/-- Claim C7: the active user query is the text of the most recent user/human
turn, found scanning from the end of the log with the first match winning —
both for the handlers (`get_last_human_message`) and for the router's inlined
scan (`orchUserQuery`); in particular the log [user "A", assistant, user "B"]
yields "B". -/
theorem last_user_turn_precedence (s : AgentState) (l1 l2 : List Msg) (u : Msg)
    (hu : isHumanRole u.role = true)
    (h2 : ∀ m ∈ l2, isHumanRole m.role = false)
    (hm : s.messages = l1 ++ u :: l2) :
    get_last_human_message s = some u.content ∧
    get_last_human_message
        { messages := [{ role := "user", content := "A" },
                       { role := "assistant", content := "mid" },
                       { role := "user", content := "B" }] } = some "B" ∧
    orchUserQuery [{ role := "human", content := "A" },
                   { role := "assistant", content := "mid" },
                   { role := "human", content := "B" }] = "B" := by
  refine ⟨?_, by decide, by decide⟩
  unfold get_last_human_message
  rw [hm, List.reverse_append, List.reverse_cons, List.find?_append, List.find?_append]
  have hnone : List.find? (fun m => isHumanRole m.role) l2.reverse = none := by
    rw [List.find?_eq_none]
    intro m hmem
    simp only [Bool.not_eq_true]
    exact h2 m (List.mem_reverse.mp hmem)
  rw [hnone, Option.none_or]
  simp [List.find?_cons, hu]

/-- Claim C7 witness: the concrete [user "A", assistant, user "B"] log, for
both scan functions. -/
theorem last_user_turn_precedence_witness :
    get_last_human_message
        { messages := [{ role := "user", content := "A" },
                       { role := "assistant", content := "mid" },
                       { role := "user", content := "B" }] } = some "B" ∧
    orchUserQuery [{ role := "human", content := "A" },
                   { role := "assistant", content := "mid" },
                   { role := "human", content := "B" }] = "B" := by
  obtain ⟨h1, -, h3⟩ := last_user_turn_precedence
    { messages := [{ role := "user", content := "A" },
                   { role := "assistant", content := "mid" },
                   { role := "user", content := "B" }] }
    [{ role := "user", content := "A" }, { role := "assistant", content := "mid" }]
    [] { role := "user", content := "B" } (by decide) (by decide) rfl
  exact ⟨h1, h3⟩

/-- Claim C8: applying the finalizer twice resolves the same answer text both
times, and each application appends exactly one assistant turn carrying that
text. -/
theorem finalize_idempotent (s : AgentState) :
    ∃ r : String,
      (finalize_node s).final_answer = some r ∧
      (finalize_node (finalize_node s)).final_answer = some r ∧
      (finalize_node s).messages = s.messages ++ [{ role := "assistant", content := r }] ∧
      (finalize_node (finalize_node s)).messages =
        (finalize_node s).messages ++ [{ role := "assistant", content := r }] :=
  ⟨finalizeReply s, rfl, rfl, rfl, rfl⟩

/-- Claim C9: an explicitly supplied non-empty `pdf_text` is kept verbatim by
the initialisation step, whatever the fallback source holds. -/
theorem init_pdf_no_overwrite (defaultPdf : Option String) (s : AgentState) (X : String)
    (hX : X ≠ "") (hs : s.pdf_text = some X) :
    (init_pdf_node defaultPdf s).pdf_text = some X := by
  simp only [init_pdf_node, hs, Option.getD_some]
  rw [if_pos hX]

/-- Claim C9 witness: a supplied context "X" survives a configured
fallback. -/
theorem init_pdf_no_overwrite_witness :
    (init_pdf_node (some "FALLBACK") { pdf_text := some "X" }).pdf_text = some "X" :=
  init_pdf_no_overwrite (some "FALLBACK") { pdf_text := some "X" } "X" (by decide) rfl

/-- Claim C10: the generator returns exactly `n` records, each with all eight
fields populated (non-empty id/name/email, gender/specialty/location drawn
from the fixed pools, rating in [3.5, 5.0] i.e. 35..50 tenths, experience in
[2, 30]); consequently a successful 6-candidate lookup summary ends in
" and 1 more.". -/
theorem generate_providers_wellformed (n : Nat) (seed_text ambientSeed : String)
    (seededRandom : String → Nat → Nat) :
    (generate_providers n seed_text seededRandom ambientSeed).length = n ∧
    (∀ p, p ∈ generate_providers n seed_text seededRandom ambientSeed →
      p.id ≠ "" ∧ p.name ≠ "" ∧ p.gender ∈ GENDERS ∧ p.specialty ∈ SPECIALTIES ∧
      35 ≤ p.rating_tenths ∧ p.rating_tenths ≤ 50 ∧
      2 ≤ p.years_experience ∧ p.years_experience ≤ 30 ∧
      p.location ∈ LOCATIONS ∧ p.contact_email ≠ "") ∧
    (∀ q : String, ∃ before : String,
      _make_final_answer_from_providers (generate_providers 6 q seededRandom ambientSeed)
        = before ++ " and 1 more.") := by
  refine ⟨?_, ?_, ?_⟩
  · simp [generate_providers]
  · intro p hp
    simp only [generate_providers, List.mem_map] at hp
    obtain ⟨i, -, rfl⟩ := hp
    exact mkProvider_wellformed _ i
  · intro q
    have h6 : (generate_providers 6 q seededRandom ambientSeed).length = 6 := by
      simp [generate_providers]
    rw [make_final_answer_six _ h6]
    exact ⟨_, rfl⟩

/-- Claim C10 witness: the all-zero draw stream at n = 1 and n = 6. -/
theorem generate_providers_wellformed_witness :
    (generate_providers 1 "" (fun _ _ => 0) "").length = 1 ∧
    (w10_provider.id ≠ "" ∧ w10_provider.name ≠ "" ∧ w10_provider.gender ∈ GENDERS ∧
      w10_provider.specialty ∈ SPECIALTIES ∧ 35 ≤ w10_provider.rating_tenths ∧
      w10_provider.rating_tenths ≤ 50 ∧ 2 ≤ w10_provider.years_experience ∧
      w10_provider.years_experience ≤ 30 ∧ w10_provider.location ∈ LOCATIONS ∧
      w10_provider.contact_email ≠ "") ∧
    (∃ before : String,
      _make_final_answer_from_providers (generate_providers 6 "q" (fun _ _ => 0) "")
        = before ++ " and 1 more.") :=
  ⟨(generate_providers_wellformed 1 "" "" (fun _ _ => 0)).1,
   (generate_providers_wellformed 1 "" "" (fun _ _ => 0)).2.1 w10_provider (by
      simp [generate_providers, w10_provider]),
   (generate_providers_wellformed 6 "" "" (fun _ _ => 0)).2.2 "q"⟩
